import Mathlib

/-!
Shallow embedding of the habit-tracker scripts src/rebuild.py and
src/collect.py, together with theorems settling the specification claims.
Machine integers are modelled as Int/Nat, HTTP responses as a status plus
the deprecation payload, fallible code as explicit outcome types.
-/

namespace HabitRebuild

/-! ## Priority tiers and reference ordering (rebuild.py lines 105-115) -/

/-- Embeds rebuild.py get_priority (lines 105-112): map days-since-last
completion to a Todoist priority ordinal. -/
def get_priority (days : Int) : Int :=
  if days ≥ 6 then 4
  else if days = 5 then 3
  else if 3 ≤ days ∧ days ≤ 4 then 2
  else 1

/-- One row of habit_reference after the stats merge: the display text,
the Days_Since_Eaten column and the Total_Count column. -/
structure RefRow where
  habit : String
  days_since : Int
  total_count : Int
deriving DecidableEq

/-- A reference row with the Todoist_Priority column added
(rebuild.py line 114). -/
structure RankedRow where
  habit : String
  days_since : Int
  total_count : Int
  todoist_priority : Int
deriving DecidableEq

/-- Adding the Todoist_Priority column (rebuild.py line 114). -/
def addPriority (r : RefRow) : RankedRow :=
  ⟨r.habit, r.days_since, r.total_count, get_priority r.days_since⟩

/-- The comparison realised by sort_values with keys Todoist_Priority then
Total_Count, both descending (rebuild.py line 115). -/
def refLE (a b : RankedRow) : Bool :=
  decide (b.todoist_priority < a.todoist_priority ∨
    (a.todoist_priority = b.todoist_priority ∧ b.total_count ≤ a.total_count))

/-- Embeds rebuild.py lines 114-115: add the priority column, then sort by
priority descending with ties broken by lifetime count descending. pandas
sort_values is a comparison sort on exactly this key, so any comparison
sort models it; we use mergeSort. -/
def rankReference (rows : List RefRow) : List RankedRow :=
  (rows.map addPriority).mergeSort refLE

/-- Embeds the Days_Since_Eaten column (rebuild.py lines 101-103):
today minus the parsed Last_Date_Eaten, with missing dates filled with the
sentinel 999. Dates are modelled as day numbers. -/
def days_since_eaten (today : Int) (last_date : Option Int) : Int :=
  match last_date with
  | none => 999
  | some d => today - d

/-- Embeds the Last_Date_Eaten update (rebuild.py lines 93-95): the latest
completion date from the log when the habit occurs there, falling back to
the value already stored in the reference file. -/
def last_date_eaten (logLatest : Option Int) (prior : Option Int) : Option Int :=
  match logLatest with
  | some d => some d
  | none => prior

/-! ## JSON values and the list-response normalizer (rebuild.py 151-186) -/

/-- JSON-like values as returned by response.json(). Objects are
association lists in insertion order (Python dicts preserve it). -/
inductive JVal where
  | obj : List (String × JVal) → JVal
  | arr : List JVal → JVal
  | str : String → JVal
  | num : Int → JVal
  | boolean : Bool → JVal
  | null : JVal

/-- Python dict .get: the value stored under a key, if any. -/
def jGet (kvs : List (String × JVal)) (k : String) : Option JVal :=
  (kvs.find? (fun p => p.1 == k)).map (fun p => p.2)

/-- isinstance(v, list): the underlying list when v is a JSON array. -/
def asList : JVal → Option (List JVal)
  | .arr xs => some xs
  | _ => none

/-- Embeds the response-shape normalization (rebuild.py lines 152-168):
a dict is searched for a list under results, then items, then its first
list-valued entry; a bare list is taken as is; anything else is empty. -/
def normalizeSource : JVal → List JVal
  | .obj kvs =>
    match (jGet kvs "results").bind asList with
    | some l => l
    | none =>
      match (jGet kvs "items").bind asList with
      | some l => l
      | none =>
        match kvs.findSome? (fun p => asList p.2) with
        | some l => l
        | none => []
  | .arr xs => xs
  | _ => []

/-- Python truthiness of a JSON value. -/
def pyTruthy : JVal → Bool
  | .null => false
  | .str s => !s.isEmpty
  | .num n => decide (n ≠ 0)
  | .boolean b => b
  | .arr xs => !xs.isEmpty
  | .obj kvs => !kvs.isEmpty

/-- Python a or b over optional values (None modelled as none): the first
operand when it is truthy, otherwise the second. -/
def pyOr (a b : Option JVal) : Option JVal :=
  match a with
  | some v => if pyTruthy v then some v else b
  | none => b

/-- Embeds extract_task_id (rebuild.py lines 173-178): for a dict, the
truthiness-or chain over the id, task_id and id_str keys; a bare string is
its own id; anything else yields None. -/
def extract_task_id : JVal → Option JVal
  | .obj kvs => pyOr (jGet kvs "id") (pyOr (jGet kvs "task_id") (jGet kvs "id_str"))
  | .str s => some (.str s)
  | _ => none

/-- Embeds the task_ids accumulation loop (rebuild.py lines 180-186):
collect the truthy extracted ids in order; a falsy or absent id produces a
printed warning and is skipped. Returns (ids, number of warnings). -/
def collectIds : List JVal → List JVal × Nat
  | [] => ([], 0)
  | e :: rest =>
    let out := collectIds rest
    match extract_task_id e with
    | some v => if pyTruthy v then (v :: out.1, out.2) else (out.1, out.2 + 1)
    | none => (out.1, out.2 + 1)

/-- The normalized id sequence for a raw list-tasks response body. -/
def listTaskIds (response : JVal) : List JVal :=
  (collectIds (normalizeSource response)).1

/-- The number of per-entry warnings printed while normalizing a response. -/
def listWarnings (response : JVal) : Nat :=
  (collectIds (normalizeSource response)).2

/-- A minimal task object carrying only an id, for stating claims. -/
def taskObj (s : String) : JVal := .obj [("id", .str s)]

/-- Python str.strip(): drop leading and trailing whitespace. Defined over
the character list so that it evaluates inside the kernel. -/
def pyStrip (s : String) : String :=
  String.mk (((s.data.dropWhile Char.isWhitespace).reverse.dropWhile Char.isWhitespace).reverse)

/-! ## Retry wrapper (rebuild.py lines 39-50) -/

/-- Python exceptions as seen by with_retries: requests RequestException
(the only kind it catches) versus any other exception. -/
inductive PyErr where
  | reqExn : String → PyErr
  | otherExn : String → PyErr
deriving DecidableEq

/-- Embeds the with_retries loop (rebuild.py lines 39-50). The wrapped call
is a function f of the invocation index (f n is the outcome of invocation
n, counting from 0); attempt is the number of failures so far and budget is
max_attempts minus attempt, so the loop test attempt greater-or-equal
max_attempts after a failure is budget at most 1. Returns the final
result, the number of invocations performed, and the list of delays slept,
in order. Each round invokes the call; an ok result returns at once; a
RequestException with budget exhausted is re-raised, and otherwise a delay
of base_delay times 2 to the failure count minus one is slept and the loop
continues; any other exception propagates uncaught immediately (also with
an exhausted budget, where the branch distinction is vacuous). -/
def retryGo (f : Nat → Except PyErr α) (base_delay : ℚ) :
    Nat → Nat → Except PyErr α × Nat × List ℚ
  | 0, attempt =>
    match f attempt with
    | .ok a => (.ok a, 1, [])
    | .error e => (.error e, 1, [])
  | 1, attempt =>
    match f attempt with
    | .ok a => (.ok a, 1, [])
    | .error e => (.error e, 1, [])
  | b + 2, attempt =>
    match f attempt with
    | .ok a => (.ok a, 1, [])
    | .error (.otherExn s) => (.error (.otherExn s), 1, [])
    | .error (.reqExn _) =>
      let out := retryGo f base_delay (b + 1) (attempt + 1)
      (out.1, out.2.1 + 1, base_delay * 2 ^ attempt :: out.2.2)

/-- with_retries(func, max_attempts, base_delay) from rebuild.py line 39. -/
def with_retries (f : Nat → Except PyErr α) (max_attempts : Nat) (base_delay : ℚ) :
    Except PyErr α × Nat × List ℚ :=
  retryGo f base_delay max_attempts 0

/-! ## HTTP responses and the per-call 410 handling -/

/-- An HTTP response: status code and the error_extra field of its JSON
body (the machine-readable deprecation payload, empty when absent). -/
structure Resp where
  status : Nat
  error_extra : String
deriving DecidableEq

/-- What becomes of the run after handling one response: a 410 prints the
error_extra payload and raises SystemExit(1); another fatal path exits
nonzero via an uncaught exception or SystemExit; otherwise execution
continues with a value. -/
inductive Outcome (α : Type) where
  | fatalDeprecated : String → Outcome α
  | fatalOther : Outcome α
  | ok : α → Outcome α

/-- The process exit code an outcome produces, none meaning the run
continues: both fatal variants terminate with a nonzero exit. -/
def Outcome.exitCode : Outcome α → Option Nat
  | .fatalDeprecated _ => some 1
  | .fatalOther => some 1
  | .ok _ => none

/-- Embeds the completed-tasks page fetch handling (collect.py lines
30-42): status 410 surfaces error_extra and exits; raise_for_status makes
any status of 400 or above fatal; otherwise the JSON body is used. -/
def collectPage (r : Resp) (body : JVal) : Outcome JVal :=
  if r.status = 410 then .fatalDeprecated r.error_extra
  else if 400 ≤ r.status then .fatalOther
  else .ok body

/-- Embeds the list-tasks response handling (rebuild.py lines 133-186):
status 410 surfaces error_extra and exits with code 1; raise_for_status
makes 400 and above exit with code 1; otherwise the body is normalized
into the id sequence. -/
def listTasksHandle (r : Resp) (body : JVal) : Outcome (List JVal) :=
  if r.status = 410 then .fatalDeprecated r.error_extra
  else if 400 ≤ r.status then .fatalOther
  else .ok (listTaskIds body)

/-- Embeds the per-delete response handling (rebuild.py lines 199-211):
status 410 surfaces error_extra and exits; otherwise the boolean records
whether the status was in the 200 to 299 range (counted as deleted) —
any other status is only warned about. -/
def deleteHandle (r : Resp) : Outcome Bool :=
  if r.status = 410 then .fatalDeprecated r.error_extra
  else .ok (decide (200 ≤ r.status ∧ r.status < 300))

/-- Embeds the parent-create response handling (rebuild.py lines 233-253):
status 410 surfaces error_extra and exits; raise_for_status makes 400 and
above fatal; then the id of the created object is read and a missing or falsy
id is fatal. -/
def parentCreateHandle (r : Resp) (body : JVal) : Outcome JVal :=
  if r.status = 410 then .fatalDeprecated r.error_extra
  else if 400 ≤ r.status then .fatalOther
  else
    match body with
    | .obj kvs =>
      match jGet kvs "id" with
      | some v => if pyTruthy v then .ok v else .fatalOther
      | none => .fatalOther
    | _ => .fatalOther

/-- Embeds the per-child-create response handling (rebuild.py lines
273-285): status 410 surfaces error_extra and exits; otherwise the boolean
records whether the status was 2xx (counted as created). -/
def childCreateHandle (r : Resp) : Outcome Bool :=
  if r.status = 410 then .fatalDeprecated r.error_extra
  else .ok (decide (200 ≤ r.status ∧ r.status < 300))

/-! ## The purge loop (rebuild.py lines 188-214) -/

/-- Result of the delete loop: the final deleted_count when the loop runs
to completion, an exit via a 410 response surfacing its payload, or a
crash from an exception with_retries did not catch. -/
inductive PurgeRes where
  | done : Nat → PurgeRes
  | deprecatedStop : String → PurgeRes
  | crashed : PurgeRes
deriving DecidableEq

/-- Embeds the delete loop (rebuild.py lines 189-214), generic in the id
type. dl gives, per task id, the outcome of with_retries(do_delete): a
response, or the exception it re-raised. A re-raised RequestException is
caught, printed and skipped; any other exception crashes the run; a 410
response exits the run; a 2xx response increments deleted_count and any
other status is only warned about. -/
def purgeRun (dl : ι → Except PyErr Resp) : List ι → PurgeRes
  | [] => .done 0
  | tid :: rest =>
    match dl tid with
    | .error (.reqExn _) => purgeRun dl rest
    | .error (.otherExn _) => .crashed
    | .ok r =>
      if r.status = 410 then .deprecatedStop r.error_extra
      else
        match purgeRun dl rest with
        | .done n => .done (n + (if 200 ≤ r.status ∧ r.status < 300 then 1 else 0))
        | out => out

/-- The delete call for one task id, wrapped exactly as at rebuild.py line
194: with_retries(do_delete, max_attempts=3, base_delay=0.2). attempts
gives the outcome of each individual HTTP delete invocation. -/
def purgeDelete (attempts : ι → Nat → Except PyErr Resp) (tid : ι) : Except PyErr Resp :=
  (with_retries (attempts tid) 3 (2/10)).1

/-- The full purge phase over the enumerated ids. -/
def purge (attempts : ι → Nat → Except PyErr Resp) (ids : List ι) : PurgeRes :=
  purgeRun (purgeDelete attempts) ids

/-- True exactly when the (retry-wrapped) delete outcome for an id is a
response with a 2xx status. -/
def del2xx (o : Except PyErr Resp) : Bool :=
  match o with
  | .ok r => decide (200 ≤ r.status ∧ r.status < 300)
  | .error _ => false

/-- True exactly when the delete outcome is a response with status 410. -/
def is410 (o : Except PyErr Resp) : Bool :=
  match o with
  | .ok r => decide (r.status = 410)
  | .error _ => false

/-- True exactly when the delete outcome is an exception other than a
RequestException (the kind the purge loop does not catch). -/
def isOtherExn (o : Except PyErr Resp) : Bool :=
  match o with
  | .error (.otherExn _) => true
  | _ => false

/-! ## The remote calls rebuild.py performs, as a trace -/

/-- The kinds of remote API calls the two scripts can make. listCompleted
is the completed-tasks query (used by collect.py only). -/
inductive ApiCall where
  | listTasks : ApiCall
  | deleteTask : JVal → ApiCall
  | createTask : ApiCall
  | listCompleted : ApiCall

/-- Whether a call is the completed-tasks query. -/
def ApiCall.isListCompleted : ApiCall → Bool
  | .listCompleted => true
  | _ => false

/-- The delete calls the purge loop issues, in order: one per id until the
loop completes, exits on a 410, or crashes. -/
def purgeCalls (dl : JVal → Except PyErr Resp) : List JVal → List ApiCall
  | [] => []
  | tid :: rest =>
    ApiCall.deleteTask tid ::
      (match dl tid with
       | .error (.reqExn _) => purgeCalls dl rest
       | .error (.otherExn _) => []
       | .ok r => if r.status = 410 then [] else purgeCalls dl rest)

/-- The sequence of remote calls rebuild.py issues, as a function of the
responses it receives: the list-tasks call, then (when that response lets
the run continue) one delete per enumerated id, then (when the purge loop
completes) the parent create. The child-create loop raises NameError
before issuing any call (see createChildren below), and no completed-tasks
query appears anywhere in rebuild.py. -/
def rebuildTrace (listR : Resp) (listBody : JVal)
    (attempts : JVal → Nat → Except PyErr Resp) : List ApiCall :=
  ApiCall.listTasks ::
    (match listTasksHandle listR listBody with
     | .ok ids =>
       purgeCalls (purgeDelete attempts) ids ++
         (match purge attempts ids with
          | .done _ => [ApiCall.createTask]
          | _ => [])
     | _ => [])

/-! ## The create-children phase (rebuild.py lines 255-288) -/

/-- A pandas cell: a string, an integer, or missing (NA). -/
inductive Cell where
  | s : String → Cell
  | i : Int → Cell
  | na : Cell
deriving DecidableEq

/-- A dataframe row: association list from column label to cell, as read
by Series.get. -/
abbrev Row := List (String × Cell)

/-- row.get(label, default): the cell under the label, or the default. -/
def rowGet (row : Row) (col : String) (d : Cell) : Cell :=
  ((row.find? (fun p => p.1 == col)).map (fun p => p.2)).getD d

/-- Python str() of a cell (a pandas NA is the float nan). -/
def strOfCell : Cell → String
  | .s v => v
  | .i n => toString n
  | .na => "nan"

/-- Python int() of a cell; none models the ValueError or TypeError raised
on a non-numeric argument. -/
def intOfCell : Cell → Option Int
  | .i n => some n
  | .s _ => none
  | .na => none

/-- The body posted for one child task (rebuild.py lines 261-266). -/
structure ChildPayload where
  content : String
  project_id : String
  parent_id : String
  priority : Int
deriving DecidableEq

/-- Result of the create-children phase: the final created_count and the
payloads actually posted when the loop runs to completion, an exit via a
410 response surfacing its payload, an unbound-name crash naming the
offending identifier, or a crash from any other uncaught exception. -/
inductive CreateRes where
  | done : Nat → List ChildPayload → CreateRes
  | deprecatedStop : String → CreateRes
  | nameCrash : String → CreateRes
  | crashed : CreateRes
deriving DecidableEq

/-- The create-children loop body exactly as written (rebuild.py lines
257-287) for the rows it would iterate: read column Food of each row,
strip it, skip blanks, build the payload with the target project id, the
parent id and the Todoist_Priority of the row (default 1) as an int, post it
with retries, exit on a 410 response, count a 2xx as created, warn and
continue otherwise, and catch (print, continue) a re-raised
RequestException. -/
def createChildrenLoop (create : ChildPayload → Except PyErr Resp)
    (projectId parentId : String) : List Row → CreateRes
  | [] => .done 0 []
  | row :: rest =>
    let content := pyStrip (strOfCell (rowGet row "Food" (.s "")))
    if content = "" then createChildrenLoop create projectId parentId rest
    else
      match intOfCell (rowGet row "Todoist_Priority" (.i 1)) with
      | none => .crashed
      | some p =>
        let payload : ChildPayload := ⟨content, projectId, parentId, p⟩
        match create payload with
        | .error (.reqExn _) => createChildrenLoop create projectId parentId rest
        | .error (.otherExn _) => .crashed
        | .ok r =>
          if r.status = 410 then .deprecatedStop r.error_extra
          else
            match createChildrenLoop create projectId parentId rest with
            | .done n ps =>
              .done (n + (if 200 ≤ r.status ∧ r.status < 300 then 1 else 0)) (payload :: ps)
            | out => out

/-- The dataframe-valued module bindings rebuild.py holds when execution
reaches line 257, keyed by variable name: habit_record, habit_reference,
recent_df, stats and stats_indexed are the only frames ever assigned, in
this order of first assignment; no binding named food_reference exists
anywhere in the script. -/
def rebuildFrameEnv (habit_record habit_reference recent_df stats stats_indexed : List Row) :
    List (String × List Row) :=
  [("habit_record", habit_record), ("habit_reference", habit_reference),
   ("recent_df", recent_df), ("stats", stats), ("stats_indexed", stats_indexed)]

/-- Embeds the entry to the create-children phase (rebuild.py line 257):
Python resolves the name food_reference in the module namespace before the
loop can start; resolving an unbound name raises NameError, which nothing
catches, so the run dies there. Otherwise the loop runs over the bound
rows of the bound frame. -/
def createChildren (env : List (String × List Row))
    (create : ChildPayload → Except PyErr Resp) (projectId parentId : String) : CreateRes :=
  match (env.find? (fun p => p.1 == "food_reference")).map (fun p => p.2) with
  | none => .nameCrash "food_reference"
  | some rows => createChildrenLoop create projectId parentId rows

/-! ## The completion collector (collect.py lines 71-106) -/

/-- One row of habit_record.csv. -/
structure LogRow where
  date : String
  habit : String
  taskId : String
  completedAt : String
deriving DecidableEq

/-- One raw completed item from the remote response. Absent fields are
modelled as the empty string, which is also how the truthiness-or
chains of the code treat them. -/
structure CompletedItem where
  project_id : String
  content : String
  id : String
  task_id : String
  completed_at : String
  completed_date : String
deriving DecidableEq

/-- it.get(id) or it.get(task_id) or the empty string
(collect.py line 81). -/
def candTaskId (it : CompletedItem) : String :=
  if it.id ≠ "" then it.id else it.task_id

/-- it.get(completed_at) or it.get(completed_date) or the empty string
(collect.py line 82). -/
def candCompletedAt (it : CompletedItem) : String :=
  if it.completed_at ≠ "" then it.completed_at else it.completed_date

/-- The dedupe test (collect.py lines 84-88): when the candidate carries a
task id, membership of that id in the TaskId column; otherwise an exact
match on date and habit text. -/
def isDup (log : List LogRow) (todayStr content tid : String) : Bool :=
  if tid ≠ "" then log.any (fun r => r.taskId == tid)
  else log.any (fun r => r.date == todayStr && r.habit == content)

/-- Embeds the collector loop (collect.py lines 71-97): filter to the
target project, strip and skip blank content, dedupe against the log read
at start (never against rows queued in the same run), and queue the
surviving rows in order. -/
def newEntries (pid todayStr : String) (log : List LogRow) :
    List CompletedItem → List LogRow
  | [] => []
  | it :: rest =>
    if it.project_id ≠ pid then newEntries pid todayStr log rest
    else
      let content := pyStrip it.content
      if content = "" then newEntries pid todayStr log rest
      else
        let tid := candTaskId it
        if isDup log todayStr content tid then newEntries pid todayStr log rest
        else ⟨todayStr, content, tid, candCompletedAt it⟩ :: newEntries pid todayStr log rest

/-- One collector run (collect.py lines 100-106): the persisted log is the
old log with the queued entries appended. -/
def runCollect (pid todayStr : String) (log : List LogRow)
    (items : List CompletedItem) : List LogRow :=
  log ++ newEntries pid todayStr log items

/-! ## Completion percentage (Streak and Ranking Engine) -/

/-- Modelled from the spec: the Streak and Ranking Engine of spec section
4.1 has no implementation under src/ (rebuild.py computes only latest
date, count, days-since and priority). total_days is the number of
calendar days from the epoch start through yesterday inclusive, zero if
yesterday precedes the epoch; days are day numbers. -/
def total_days (epoch yesterday : Int) : Int :=
  if yesterday < epoch then 0 else yesterday - epoch + 1

/-- Modelled from the spec: days_completed is the count of distinct
completion dates falling within the window from epoch through yesterday. -/
def days_completed (dates : Finset Int) (epoch yesterday : Int) : Int :=
  ((dates.filter (fun d => epoch ≤ d ∧ d ≤ yesterday)).card : Int)

/-- Modelled from the spec: percentage is round(days_completed /
total_days times 100) as an integer, and 0 when total_days is 0. -/
def percentage (dates : Finset Int) (epoch yesterday : Int) : Int :=
  let td := total_days epoch yesterday
  if td = 0 then 0
  else round ((days_completed dates epoch yesterday : ℚ) / (td : ℚ) * 100)

/-! ## Helper lemmas -/

lemma refLE_trans (a b c : RankedRow) (hab : refLE a b = true) (hbc : refLE b c = true) :
    refLE a c = true := by
  simp only [refLE, decide_eq_true_eq] at *
  omega

lemma refLE_total (a b : RankedRow) : (refLE a b || refLE b a) = true := by
  simp only [refLE, Bool.or_eq_true, decide_eq_true_eq]
  omega

lemma isEmpty_false_of_ne (s : String) (h : s ≠ "") : s.isEmpty = false := by
  rcases hb : s.isEmpty with _ | _
  · rfl
  · exact absurd ((String.isEmpty_iff s).mp hb) h

lemma days_completed_nonneg (dates : Finset Int) (epoch yesterday : Int) :
    0 ≤ days_completed dates epoch yesterday := by
  unfold days_completed
  exact_mod_cast Nat.zero_le _

lemma days_completed_le_total (dates : Finset Int) (epoch yesterday : Int) :
    days_completed dates epoch yesterday ≤ total_days epoch yesterday := by
  unfold days_completed total_days
  split_ifs with h
  · have he : dates.filter (fun d => epoch ≤ d ∧ d ≤ yesterday) = ∅ := by
      rw [Finset.filter_eq_empty_iff]
      intro x _ hx
      omega
    simp [he]
  · have hsub : dates.filter (fun d => epoch ≤ d ∧ d ≤ yesterday) ⊆
        Finset.Icc epoch yesterday := by
      intro x hx
      rw [Finset.mem_filter] at hx
      rw [Finset.mem_Icc]
      exact hx.2
    have hc := Finset.card_le_card hsub
    rw [Int.card_Icc] at hc
    have hc2 : ((dates.filter (fun d => epoch ≤ d ∧ d ≤ yesterday)).card : Int) ≤
        ((yesterday + 1 - epoch).toNat : Int) := by exact_mod_cast hc
    rw [Int.toNat_of_nonneg (by omega)] at hc2
    omega

lemma retryGo_ok (f : Nat → Except PyErr α) (bd : ℚ) (a : α) (budget attempt : Nat)
    (h : f attempt = Except.ok a) : retryGo f bd budget attempt = (Except.ok a, 1, []) := by
  rcases budget with _ | _ | b <;> rw [retryGo, h]

lemma retryGo_other (f : Nat → Except PyErr α) (bd : ℚ) (s : String) (budget attempt : Nat)
    (h : f attempt = Except.error (PyErr.otherExn s)) :
    retryGo f bd budget attempt = (Except.error (PyErr.otherExn s), 1, []) := by
  rcases budget with _ | _ | b <;> rw [retryGo, h]

lemma retryGo_count_pos (f : Nat → Except PyErr α) (bd : ℚ) (budget attempt : Nat) :
    1 ≤ (retryGo f bd budget attempt).2.1 := by
  rcases budget with _ | _ | b <;> rcases hf : f attempt with e | a
  · simp [retryGo, hf]
  · simp [retryGo, hf]
  · simp [retryGo, hf]
  · simp [retryGo, hf]
  · rcases e with s | s <;> simp [retryGo, hf]
  · simp [retryGo, hf]

lemma retryGo_count_le (f : Nat → Except PyErr α) (bd : ℚ) :
    ∀ budget attempt, 1 ≤ budget → (retryGo f bd budget attempt).2.1 ≤ budget := by
  intro budget
  induction budget using Nat.strong_induction_on with
  | _ budget ih =>
    intro attempt hb
    rcases budget with _ | _ | b
    · omega
    · rcases hf : f attempt with e | a <;> simp [retryGo, hf]
    · rcases hf : f attempt with e | a
      · rcases e with s | s
        · have := ih (b + 1) (by omega) (attempt + 1) (by omega)
          simp only [retryGo, hf]
          omega
        · simp [retryGo, hf]
      · simp [retryGo, hf]

lemma retryGo_delays (f : Nat → Except PyErr α) (bd : ℚ) :
    ∀ budget attempt,
      (retryGo f bd budget attempt).2.2 =
        (List.range ((retryGo f bd budget attempt).2.1 - 1)).map
          (fun i => bd * 2 ^ (attempt + i)) := by
  intro budget
  induction budget using Nat.strong_induction_on with
  | _ budget ih =>
    intro attempt
    rcases budget with _ | _ | b
    · rcases hf : f attempt with e | a <;> simp [retryGo, hf]
    · rcases hf : f attempt with e | a <;> simp [retryGo, hf]
    · rcases hf : f attempt with e | a
      · rcases e with s | s
        · simp only [retryGo, hf]
          have hpos := retryGo_count_pos f bd (b + 1) (attempt + 1)
          have hih := ih (b + 1) (by omega) (attempt + 1)
          obtain ⟨k, hk⟩ : ∃ k, (retryGo f bd (b + 1) (attempt + 1)).2.1 = k + 1 :=
            ⟨(retryGo f bd (b + 1) (attempt + 1)).2.1 - 1, by omega⟩
          rw [hih, hk]
          simp only [Nat.add_sub_cancel]
          rw [List.range_succ_eq_map, List.map_cons, List.map_map]
          have h2 : List.map (fun i => bd * 2 ^ (attempt + 1 + i)) (List.range k) =
              List.map ((fun i => bd * 2 ^ (attempt + i)) ∘ Nat.succ) (List.range k) := by
            apply List.map_congr_left
            intro i _
            simp only [Function.comp_apply]
            have h3 : attempt + 1 + i = attempt + Nat.succ i := by omega
            rw [h3]
          rw [h2]
          simp
        · simp [retryGo, hf]
      · simp [retryGo, hf]

lemma retryGo_allfail (f : Nat → Except PyErr α) (bd : ℚ) (g : Nat → String)
    (hg : ∀ i, f i = Except.error (PyErr.reqExn (g i))) :
    ∀ budget attempt, 1 ≤ budget →
      (retryGo f bd budget attempt).1 = Except.error (PyErr.reqExn (g (attempt + budget - 1))) ∧
      (retryGo f bd budget attempt).2.1 = budget := by
  intro budget
  induction budget using Nat.strong_induction_on with
  | _ budget ih =>
    intro attempt hb
    rcases budget with _ | _ | b
    · omega
    · rw [retryGo, hg attempt]
      simp
    · rw [retryGo, hg attempt]
      simp only
      have hih := ih (b + 1) (by omega) (attempt + 1) (by omega)
      have harith : attempt + 1 + (b + 1) - 1 = attempt + (b + 2) - 1 := by omega
      rw [harith] at hih
      exact ⟨hih.1, by omega⟩

lemma purgeRun_done {ι : Type} (dl : ι → Except PyErr Resp) :
    ∀ ids : List ι,
      (∀ tid ∈ ids, is410 (dl tid) = false) →
      (∀ tid ∈ ids, isOtherExn (dl tid) = false) →
      purgeRun dl ids = PurgeRes.done ((ids.filter (fun tid => del2xx (dl tid))).length) := by
  intro ids
  induction ids with
  | nil =>
    intro _ _
    rfl
  | cons tid rest ih =>
    intro h410 hother
    have h1 := h410 tid (List.mem_cons_self tid rest)
    have h2 := hother tid (List.mem_cons_self tid rest)
    have hrest := ih (fun t ht => h410 t (List.mem_cons_of_mem _ ht))
      (fun t ht => hother t (List.mem_cons_of_mem _ ht))
    rcases hd : dl tid with e | r
    · rcases e with s | s
      · have hflt : del2xx (dl tid) = false := by rw [hd]; rfl
        simp only [purgeRun, hd, hrest, List.filter_cons, hflt]
        simp [del2xx]
      · rw [hd] at h2
        simp [isOtherExn] at h2
    · have hr410 : ¬r.status = 410 := by
        rw [hd] at h1
        simpa [is410] using h1
      have hflt : del2xx (dl tid) = decide (200 ≤ r.status ∧ r.status < 300) := by
        rw [hd]; rfl
      simp only [purgeRun, hd, if_neg hr410, hrest, List.filter_cons, hflt]
      by_cases hc : 200 ≤ r.status ∧ r.status < 300
      · simp [del2xx, hc]
      · simp [del2xx, hc]

lemma purgeCalls_no_listCompleted (dl : JVal → Except PyErr Resp) :
    ∀ ids : List JVal,
      (purgeCalls dl ids).all (fun c => !c.isListCompleted) = true := by
  intro ids
  induction ids with
  | nil => rfl
  | cons tid rest ih =>
    rcases hd : dl tid with e | r
    · rcases e with s | s
      · simpa [purgeCalls, hd, ApiCall.isListCompleted] using ih
      · simp [purgeCalls, hd, ApiCall.isListCompleted]
    · by_cases h4 : r.status = 410
      · simp [purgeCalls, hd, h4, ApiCall.isListCompleted]
      · simpa [purgeCalls, hd, h4, ApiCall.isListCompleted] using ih

lemma extract_taskObj (s : String) (h : s ≠ "") :
    extract_task_id (taskObj s) = some (JVal.str s) := by
  have he : s.isEmpty = false := isEmpty_false_of_ne s h
  simp [extract_task_id, taskObj, jGet, pyOr, pyTruthy, he]

lemma collectIds_taskObjs (ids : List String) (h : ∀ s ∈ ids, s ≠ "") :
    collectIds (ids.map taskObj) = (ids.map JVal.str, 0) := by
  induction ids with
  | nil => rfl
  | cons s rest ih =>
    have hs := h s (List.mem_cons_self s rest)
    have hrest := ih (fun t ht => h t (List.mem_cons_of_mem _ ht))
    have he : s.isEmpty = false := isEmpty_false_of_ne s hs
    simp [collectIds, hrest, extract_taskObj s hs, pyTruthy, he]

lemma collectIds_strs (ids : List String) (h : ∀ s ∈ ids, s ≠ "") :
    collectIds (ids.map JVal.str) = (ids.map JVal.str, 0) := by
  induction ids with
  | nil => rfl
  | cons s rest ih =>
    have hs := h s (List.mem_cons_self s rest)
    have hrest := ih (fun t ht => h t (List.mem_cons_of_mem _ ht))
    have he : s.isEmpty = false := isEmpty_false_of_ne s hs
    simp [collectIds, hrest, extract_task_id, pyTruthy, he]

lemma jGet_bind_asList_none (kvs : List (String × JVal)) (k : String)
    (h : ∀ p ∈ kvs, asList p.2 = none) : (jGet kvs k).bind asList = none := by
  rcases hj : jGet kvs k with _ | v
  · rfl
  · unfold jGet at hj
    rcases hf : List.find? (fun p => p.1 == k) kvs with _ | p
    · rw [hf] at hj
      simp at hj
    · rw [hf] at hj
      simp at hj
      have hm := List.mem_of_find?_eq_some hf
      have := h p hm
      rw [hj] at this
      simp [this]

lemma normalizeSource_unrecognized_obj (kvs : List (String × JVal))
    (h : ∀ p ∈ kvs, asList p.2 = none) : normalizeSource (JVal.obj kvs) = [] := by
  have h1 := jGet_bind_asList_none kvs "results" h
  have h2 := jGet_bind_asList_none kvs "items" h
  have h3 : kvs.findSome? (fun p => asList p.2) = none :=
    List.findSome?_eq_none_iff.mpr h
  simp [normalizeSource, h1, h2, h3]

/-! ## Claim theorems -/

/-- Claim C2: get_priority maps days-since-last-completion to an ordinal
tier (at least 6 days gives 4, exactly 5 gives 3, from 3 to 4 gives 2, any
other value gives 1), and rankReference orders the reference list by this
tier descending with ties broken by lifetime completion count descending,
for every input table. -/
theorem c2_priority_tiers_and_order :
    (∀ d : Int,
      (6 ≤ d → get_priority d = 4) ∧
      (d = 5 → get_priority d = 3) ∧
      (3 ≤ d → d ≤ 4 → get_priority d = 2) ∧
      (d < 3 → get_priority d = 1)) ∧
    (∀ rows : List RefRow,
      (rankReference rows).Pairwise (fun a b =>
        b.todoist_priority < a.todoist_priority ∨
          (a.todoist_priority = b.todoist_priority ∧ b.total_count ≤ a.total_count)) ∧
      (rankReference rows).Perm (rows.map addPriority)) := by
  constructor
  · intro d
    refine ⟨?_, ?_, ?_, ?_⟩
    · intro h; simp only [get_priority]; split_ifs <;> omega
    · intro h; simp only [get_priority]; split_ifs <;> omega
    · intro h1 h2; simp only [get_priority]; split_ifs <;> omega
    · intro h; simp only [get_priority]; split_ifs <;> omega
  · intro rows
    constructor
    · have hs := @List.sorted_mergeSort RankedRow refLE refLE_trans refLE_total
        (rows.map addPriority)
      exact hs.imp (fun hab => by
        simpa only [refLE, decide_eq_true_eq] using hab)
    · exact List.mergeSort_perm (rows.map addPriority) refLE

/-- Witness for C2 at concrete inputs: days 7, 5, 3 and 0 land in tiers 4,
3, 2 and 1. -/
theorem c2_priority_tiers_and_order_witness :
    get_priority 7 = 4 ∧ get_priority 5 = 3 ∧ get_priority 3 = 2 ∧ get_priority 0 = 1 :=
  ⟨(c2_priority_tiers_and_order.1 7).1 (by norm_num),
   (c2_priority_tiers_and_order.1 5).2.1 rfl,
   (c2_priority_tiers_and_order.1 3).2.2.1 (by norm_num) (by norm_num),
   (c2_priority_tiers_and_order.1 0).2.2.2 (by norm_num)⟩

/-- Claim C10: a reference item that never occurs in the completion log
(so it has no latest-completion date) gets the sentinel 999 as
Days_Since_Eaten, hence the highest priority tier 4, the same tier as any
item last completed six or more days ago, and no tier exceeds it. -/
theorem c10_never_completed_top_tier :
    ∀ today : Int,
      days_since_eaten today (last_date_eaten none none) = 999 ∧
      get_priority (days_since_eaten today (last_date_eaten none none)) = 4 ∧
      (∀ e : Int, get_priority e ≤ 4) ∧
      (∀ d : Int, 6 ≤ d →
        get_priority d = get_priority (days_since_eaten today (last_date_eaten none none))) := by
  intro today
  have h999 : days_since_eaten today (last_date_eaten none none) = 999 := rfl
  refine ⟨h999, by rw [h999]; decide, ?_, ?_⟩
  · intro e
    simp only [get_priority]
    split_ifs <;> omega
  · intro d hd
    have h4 : get_priority d = 4 := by
      simp only [get_priority]; split_ifs <;> omega
    rw [h4, h999]
    decide

/-- Witness for C10 at a concrete input: with today = 10 the sentinel row
lands in tier 4, alongside an item last completed 6 days ago. -/
theorem c10_never_completed_top_tier_witness :
    get_priority (days_since_eaten 10 (last_date_eaten none none)) = 4 ∧
    get_priority 6 = get_priority (days_since_eaten 10 (last_date_eaten none none)) :=
  ⟨(c10_never_completed_top_tier 10).2.1,
   (c10_never_completed_top_tier 10).2.2.2 6 (by norm_num)⟩

/-- Claim C9 (spec-modelled, the engine is absent from src/): the
completion percentage is 0 whenever total_days is 0, always lies in the
range 0 to 100, and otherwise equals round(days_completed / total_days
times 100) as an integer. -/
theorem c9_percentage_bounds :
    ∀ (dates : Finset Int) (epoch yesterday : Int),
      (total_days epoch yesterday = 0 → percentage dates epoch yesterday = 0) ∧
      0 ≤ percentage dates epoch yesterday ∧
      percentage dates epoch yesterday ≤ 100 ∧
      (total_days epoch yesterday ≠ 0 →
        percentage dates epoch yesterday =
          round ((days_completed dates epoch yesterday : ℚ) /
            (total_days epoch yesterday : ℚ) * 100)) := by
  intro dates epoch yesterday
  by_cases h : total_days epoch yesterday = 0
  · refine ⟨fun _ => ?_, ?_, ?_, fun hne => absurd h hne⟩ <;>
      simp [percentage, h]
  · have htdpos : 0 < total_days epoch yesterday := by
      unfold total_days at *
      split_ifs at * <;> omega
    have hdc0 := days_completed_nonneg dates epoch yesterday
    have hdcle := days_completed_le_total dates epoch yesterday
    have hx0 : (0 : ℚ) ≤ (days_completed dates epoch yesterday : ℚ) /
        (total_days epoch yesterday : ℚ) * 100 := by
      apply mul_nonneg _ (by norm_num)
      apply div_nonneg (by exact_mod_cast hdc0) (by exact_mod_cast le_of_lt htdpos)
    have hx1 : (days_completed dates epoch yesterday : ℚ) /
        (total_days epoch yesterday : ℚ) * 100 ≤ 100 := by
      have hq : (days_completed dates epoch yesterday : ℚ) /
          (total_days epoch yesterday : ℚ) ≤ 1 := by
        rw [div_le_one (by exact_mod_cast htdpos)]
        exact_mod_cast hdcle
      calc (days_completed dates epoch yesterday : ℚ) /
          (total_days epoch yesterday : ℚ) * 100 ≤ 1 * 100 := by
            exact mul_le_mul_of_nonneg_right hq (by norm_num)
        _ = 100 := by norm_num
    have hpe : percentage dates epoch yesterday =
        round ((days_completed dates epoch yesterday : ℚ) /
          (total_days epoch yesterday : ℚ) * 100) := by
      simp [percentage, h]
    refine ⟨fun h0 => absurd h0 h, ?_, ?_, fun _ => hpe⟩
    · rw [hpe, round_eq]
      rw [Int.le_floor]
      push_cast
      linarith
    · rw [hpe, round_eq]
      have : ⌊(days_completed dates epoch yesterday : ℚ) /
          (total_days epoch yesterday : ℚ) * 100 + 1 / 2⌋ < 101 := by
        rw [Int.floor_lt]
        push_cast
        linarith
      omega

/-- Claim C6: with_retries invokes the wrapped call at most max_attempts
times, sleeps base_delay times 2 to the power k minus 1 before the k-th
retry (the delay list is exactly that geometric sequence), does not retry
a non-request exception, and when every invocation raises a request
exception it performs exactly max_attempts invocations and re-raises the
last exception. -/
theorem c6_retry_bounded (f : Nat → Except PyErr α) (ma : Nat) (bd : ℚ) (h : 1 ≤ ma) :
    (with_retries f ma bd).2.1 ≤ ma ∧
    (with_retries f ma bd).2.2 =
      (List.range ((with_retries f ma bd).2.1 - 1)).map (fun k => bd * 2 ^ k) ∧
    (∀ s, f 0 = Except.error (PyErr.otherExn s) →
      with_retries f ma bd = (Except.error (PyErr.otherExn s), 1, [])) ∧
    (∀ g : Nat → String, (∀ i, f i = Except.error (PyErr.reqExn (g i))) →
      (with_retries f ma bd).1 = Except.error (PyErr.reqExn (g (ma - 1))) ∧
      (with_retries f ma bd).2.1 = ma) := by
  refine ⟨retryGo_count_le f bd ma 0 h, ?_, ?_, ?_⟩
  · have hd := retryGo_delays f bd ma 0
    simpa [with_retries] using hd
  · intro s hs
    exact retryGo_other f bd s ma 0 hs
  · intro g hg
    have ha := retryGo_allfail f bd g hg ma 0 h
    simpa [with_retries] using ha

/-- Witness for C6 at a concrete input: a call that always raises a
request exception, wrapped with max_attempts 4, is invoked at most 4 times
and its last exception is re-raised. -/
theorem c6_retry_bounded_witness :
    (with_retries (fun _ => (Except.error (PyErr.reqExn "t") : Except PyErr Nat)) 4 (1/2)).2.1 ≤ 4 ∧
    (with_retries (fun _ => (Except.error (PyErr.reqExn "t") : Except PyErr Nat)) 4 (1/2)).1 =
      Except.error (PyErr.reqExn "t") := by
  have h := c6_retry_bounded (fun _ => (Except.error (PyErr.reqExn "t") : Except PyErr Nat))
    4 (1/2) (by norm_num)
  exact ⟨h.1, (h.2.2.2 (fun _ => "t") (fun _ => rfl)).1⟩

/-- Claim C5: at every remote call site of either script (completed-tasks
page, list tasks, delete task, create parent, create child) a 410 response
surfaces the machine-readable error_extra payload and terminates the run
with a nonzero exit, and it is never retried: the retry wrapper returns
any received response, 410 included, after exactly one invocation. -/
theorem c5_deprecation_fatal :
    ∀ (r : Resp) (body : JVal) (ma : Nat) (bd : ℚ), r.status = 410 →
      collectPage r body = Outcome.fatalDeprecated r.error_extra ∧
      listTasksHandle r body = Outcome.fatalDeprecated r.error_extra ∧
      deleteHandle r = Outcome.fatalDeprecated r.error_extra ∧
      parentCreateHandle r body = Outcome.fatalDeprecated r.error_extra ∧
      childCreateHandle r = Outcome.fatalDeprecated r.error_extra ∧
      Outcome.exitCode (Outcome.fatalDeprecated r.error_extra : Outcome JVal) = some 1 ∧
      (∀ f : Nat → Except PyErr Resp, f 0 = Except.ok r →
        with_retries f ma bd = (Except.ok r, 1, [])) := by
  intro r body ma bd h
  refine ⟨?_, ?_, ?_, ?_, ?_, rfl, ?_⟩
  · simp [collectPage, h]
  · simp [listTasksHandle, h]
  · simp [deleteHandle, h]
  · simp [parentCreateHandle, h]
  · simp [childCreateHandle, h]
  · intro f hf
    exact retryGo_ok f bd r ma 0 hf

/-- Claim C4: when no delete outcome is a 410 response and none raises an
exception the loop would not catch, the purge loop completes without
aborting, its reported deleted count is exactly the number of ids whose
delete returned a 2xx status (per-id failures are only logged and
skipped), and every per-id delete performs at most 3 retry-wrapped
invocations. -/
theorem c4_purge_skips_failed_deletes {ι : Type} (attempts : ι → Nat → Except PyErr Resp)
    (ids : List ι)
    (h410 : ∀ tid ∈ ids, is410 (purgeDelete attempts tid) = false)
    (hother : ∀ tid ∈ ids, isOtherExn (purgeDelete attempts tid) = false) :
    purge attempts ids =
      PurgeRes.done ((ids.filter (fun tid => del2xx (purgeDelete attempts tid))).length) ∧
    ∀ tid : ι, (with_retries (attempts tid) 3 (2/10)).2.1 ≤ 3 := by
  constructor
  · exact purgeRun_done (purgeDelete attempts) ids h410 hother
  · intro tid
    exact retryGo_count_le (attempts tid) (2/10) 3 0 (by norm_num)

/-- Witness for C4 at the spec scenario: five ids, one of which (the third)
returns HTTP 500, the rest 204 — the purge completes with deleted_count 4
out of 5 attempted. -/
theorem c4_purge_skips_failed_deletes_witness :
    purge (fun tid _ => Except.ok (⟨if tid = "c" then 500 else 204, ""⟩ : Resp))
      ["a", "b", "c", "d", "e"] = PurgeRes.done 4 ∧
    (["a", "b", "c", "d", "e"] : List String).length = 5 := by
  have h := c4_purge_skips_failed_deletes
    (fun tid _ => Except.ok (⟨if tid = "c" then 500 else 204, ""⟩ : Resp))
    ["a", "b", "c", "d", "e"] (by decide) (by decide)
  refine ⟨?_, rfl⟩
  rw [h.1]
  decide

/-- Witness for C5 at a concrete 410 response carrying a deprecation
payload. -/
theorem c5_deprecation_fatal_witness :
    deleteHandle ⟨410, "v1 endpoints removed"⟩ =
      Outcome.fatalDeprecated "v1 endpoints removed" ∧
    with_retries (fun _ => Except.ok (⟨410, "v1 endpoints removed"⟩ : Resp)) 3 1 =
      (Except.ok (⟨410, "v1 endpoints removed"⟩ : Resp), 1, []) := by
  have h := c5_deprecation_fatal ⟨410, "v1 endpoints removed"⟩ JVal.null 3 1 rfl
  exact ⟨h.2.2.1, h.2.2.2.2.2.2 (fun _ => Except.ok ⟨410, "v1 endpoints removed"⟩) rfl⟩

/-- Witness for C9 at concrete inputs: with the date set containing days 0
and 1, an epoch after yesterday gives percentage 0, and epoch 0 with
yesterday 1 gives the rounded ratio. -/
theorem c9_percentage_bounds_witness :
    percentage ({0, 1} : Finset Int) 5 0 = 0 ∧
    percentage ({0, 1} : Finset Int) 0 1 =
      round ((days_completed ({0, 1} : Finset Int) 0 1 : ℚ) / ((total_days 0 1 : ℚ)) * 100) :=
  ⟨(c9_percentage_bounds {0, 1} 5 0).1 (by decide),
   (c9_percentage_bounds {0, 1} 0 1).2.2.2 (by decide)⟩

/-- Claim C1 is a code bug: the recreate loop at rebuild.py line 257
iterates food_reference, a name the script never binds (the loaded frame
is habit_reference), so Python raises NameError there and the run aborts
before building or creating any child task, whatever the reference
contains; moreover the loop body reads column Food, which the habit
reference (whose display-text column is Habit) does not have, so even
under the intended binding every row would be skipped as blank. -/
theorem c1_recreate_name_bug :
    (∀ (hr ref rd st si : List Row) (create : ChildPayload → Except PyErr Resp)
      (pid parid : String),
      createChildren (rebuildFrameEnv hr ref rd st si) create pid parid =
        CreateRes.nameCrash "food_reference") ∧
    (∀ (create : ChildPayload → Except PyErr Resp) (pid parid : String),
      createChildrenLoop create pid parid [[("Habit", Cell.s "Apple")]] =
        CreateRes.done 0 []) := by
  constructor
  · intro hr ref rd st si create pid parid
    rfl
  · intro create pid parid
    have h : pyStrip (strOfCell (rowGet [("Habit", Cell.s "Apple")] "Food" (Cell.s ""))) = "" := by
      decide
    simp [createChildrenLoop, h]

/-- Claim C8 counterexample: a concrete honest run of rebuild.py (the
list-tasks call succeeds with two ids, every delete returns 204) issues no
completed-tasks query at all, contradicting the claimed purge of
recently completed tasks. -/
theorem c8_no_completed_purge_counterexample :
    ((rebuildTrace ⟨200, ""⟩ (JVal.arr [JVal.str "a", JVal.str "b"])
        (fun _ _ => Except.ok ⟨204, ""⟩)).all (fun c => !c.isListCompleted)) = true := by
  rfl

/-- Claim C8 amended: rebuild.py contains no completed-task purge — for
every list-tasks response and every delete outcome, the sequence of remote
calls the Reconciler issues never includes a completed-tasks query; after
the purge of active tasks it proceeds directly to the create phase. -/
theorem c8_no_completed_purge :
    ∀ (listR : Resp) (listBody : JVal) (attempts : JVal → Nat → Except PyErr Resp),
      (rebuildTrace listR listBody attempts).all (fun c => !c.isListCompleted) = true := by
  intro listR listBody attempts
  unfold rebuildTrace
  rcases hl : listTasksHandle listR listBody with s | _ | ids
  · simp [ApiCall.isListCompleted]
  · simp [ApiCall.isListCompleted]
  · simp only [List.all_cons, List.all_append, ApiCall.isListCompleted, Bool.not_false,
      Bool.true_and, Bool.and_eq_true]
    refine ⟨purgeCalls_no_listCompleted (purgeDelete attempts) ids, ?_⟩
    rcases purge attempts ids with n | s | _
    · simp [ApiCall.isListCompleted]
    · rfl
    · rfl

/-- Claim C3 amended: the normalizer turns a bare list of task objects
into their ids in order; a dict exposing the sequence under results or
items, or otherwise under its first list-valued entry, yields that
ids of that sequence; a list of bare non-empty identifier strings is returned
unchanged; and any unrecognized top-level shape (a scalar, or a dict with
no list-valued entry) yields the empty sequence with zero logged warnings
rather than aborting — warnings are logged per unrecognized entry inside a
recognized sequence, not for the top-level shape. -/
theorem c3_normalizer :
    (∀ ids : List String, (∀ s ∈ ids, s ≠ "") →
      listTaskIds (JVal.arr (ids.map taskObj)) = ids.map JVal.str) ∧
    (∀ (kvs : List (String × JVal)) (l : List JVal),
      jGet kvs "results" = some (JVal.arr l) →
      listTaskIds (JVal.obj kvs) = (collectIds l).1) ∧
    (∀ (kvs : List (String × JVal)) (l : List JVal),
      (jGet kvs "results").bind asList = none →
      jGet kvs "items" = some (JVal.arr l) →
      listTaskIds (JVal.obj kvs) = (collectIds l).1) ∧
    (∀ (kvs : List (String × JVal)) (l : List JVal),
      (jGet kvs "results").bind asList = none →
      (jGet kvs "items").bind asList = none →
      kvs.findSome? (fun p => asList p.2) = some l →
      listTaskIds (JVal.obj kvs) = (collectIds l).1) ∧
    (∀ ids : List String, (∀ s ∈ ids, s ≠ "") →
      listTaskIds (JVal.arr (ids.map JVal.str)) = ids.map JVal.str) ∧
    (∀ s, listTaskIds (JVal.str s) = [] ∧ listWarnings (JVal.str s) = 0) ∧
    (∀ n, listTaskIds (JVal.num n) = [] ∧ listWarnings (JVal.num n) = 0) ∧
    (∀ b, listTaskIds (JVal.boolean b) = [] ∧ listWarnings (JVal.boolean b) = 0) ∧
    (listTaskIds JVal.null = [] ∧ listWarnings JVal.null = 0) ∧
    (∀ kvs : List (String × JVal), (∀ p ∈ kvs, asList p.2 = none) →
      listTaskIds (JVal.obj kvs) = [] ∧ listWarnings (JVal.obj kvs) = 0) := by
  refine ⟨?_, ?_, ?_, ?_, ?_, fun s => ⟨rfl, rfl⟩, fun n => ⟨rfl, rfl⟩,
    fun b => ⟨rfl, rfl⟩, ⟨rfl, rfl⟩, ?_⟩
  · intro ids h
    have hc := collectIds_taskObjs ids h
    simp [listTaskIds, normalizeSource, hc]
  · intro kvs l h
    have hb : (jGet kvs "results").bind asList = some l := by rw [h]; rfl
    simp [listTaskIds, normalizeSource, hb]
  · intro kvs l h1 h2
    have hb : (jGet kvs "items").bind asList = some l := by rw [h2]; rfl
    simp [listTaskIds, normalizeSource, h1, hb]
  · intro kvs l h1 h2 h3
    simp [listTaskIds, normalizeSource, h1, h2, h3]
  · intro ids h
    have hc := collectIds_strs ids h
    simp [listTaskIds, normalizeSource, hc]
  · intro kvs h
    have hn := normalizeSource_unrecognized_obj kvs h
    constructor
    · unfold listTaskIds
      rw [hn]
      rfl
    · unfold listWarnings
      rw [hn]
      rfl

/-- Witness for C3 at the spec scenario: an items dict yields the ids a, b
and a bare string list yields c, d unchanged. -/
theorem c3_normalizer_witness :
    listTaskIds (JVal.obj [("items", JVal.arr [taskObj "a", taskObj "b"])]) =
      [JVal.str "a", JVal.str "b"] ∧
    listTaskIds (JVal.arr [JVal.str "c", JVal.str "d"]) = [JVal.str "c", JVal.str "d"] := by
  constructor
  · have h := c3_normalizer.2.2.1 [("items", JVal.arr [taskObj "a", taskObj "b"])]
      [taskObj "a", taskObj "b"] rfl rfl
    rw [h]
    rfl
  · have h := c3_normalizer.2.2.2.2.1 ["c", "d"] (by decide)
    simpa using h

/-- Claim C3 counterexample: for the unrecognized top-level shape 42 the
code yields the empty sequence but logs zero warnings, where the claim
asserts a warning is logged. -/
theorem c3_normalizer_counterexample :
    listTaskIds (JVal.num 42) = [] ∧ listWarnings (JVal.num 42) = 0 :=
  ⟨rfl, rfl⟩

lemma isDup_mono (L L2 : List LogRow) (hsub : ∀ r ∈ L, r ∈ L2)
    (today content tid : String) (h : isDup L today content tid = true) :
    isDup L2 today content tid = true := by
  unfold isDup at *
  split_ifs at * with ht
  · rw [List.any_eq_true] at *
    obtain ⟨r, hr, hp⟩ := h
    exact ⟨r, hsub r hr, hp⟩
  · rw [List.any_eq_true] at *
    obtain ⟨r, hr, hp⟩ := h
    exact ⟨r, hsub r hr, hp⟩

lemma newEntries_cons_sub (pid today : String) (log : List LogRow)
    (x : CompletedItem) (rest : List CompletedItem) :
    ∀ r ∈ newEntries pid today log rest, r ∈ newEntries pid today log (x :: rest) := by
  intro r hr
  simp only [newEntries]
  split_ifs
  · exact hr
  · exact hr
  · exact hr
  · exact List.mem_cons_of_mem _ hr

lemma dup_after_run (pid today : String) (log : List LogRow) :
    ∀ (items : List CompletedItem) (it : CompletedItem), it ∈ items →
      it.project_id = pid → pyStrip it.content ≠ "" →
      isDup (log ++ newEntries pid today log items) today (pyStrip it.content)
        (candTaskId it) = true := by
  intro items
  induction items with
  | nil =>
    intro it h
    exact absurd h (List.not_mem_nil it)
  | cons x rest ih =>
    intro it hmem hpid hcontent
    rcases List.mem_cons.mp hmem with heq | hmem2
    · subst heq
      by_cases hdup : isDup log today (pyStrip it.content) (candTaskId it) = true
      · exact isDup_mono log _ (fun r hr => List.mem_append_left _ hr) _ _ _ hdup
      · have hne : newEntries pid today log (it :: rest) =
            ⟨today, pyStrip it.content, candTaskId it, candCompletedAt it⟩ ::
              newEntries pid today log rest := by
          simp only [newEntries]
          rw [if_neg (by simp [hpid]), if_neg hcontent, if_neg hdup]
        rw [hne]
        unfold isDup
        split_ifs with ht
        · rw [List.any_eq_true]
          exact ⟨⟨today, pyStrip it.content, candTaskId it, candCompletedAt it⟩,
            List.mem_append_right _ (List.mem_cons_self _ _), by simp⟩
        · rw [List.any_eq_true]
          exact ⟨⟨today, pyStrip it.content, candTaskId it, candCompletedAt it⟩,
            List.mem_append_right _ (List.mem_cons_self _ _), by simp⟩
    · have hih := ih it hmem2 hpid hcontent
      apply isDup_mono _ _ _ _ _ _ hih
      intro r hr
      rcases List.mem_append.mp hr with h1 | h2
      · exact List.mem_append_left _ h1
      · exact List.mem_append_right _ (newEntries_cons_sub pid today log x rest r h2)

lemma newEntries_nil_of_dup (pid today : String) (L : List LogRow) :
    ∀ items : List CompletedItem,
      (∀ it ∈ items, it.project_id = pid → pyStrip it.content ≠ "" →
        isDup L today (pyStrip it.content) (candTaskId it) = true) →
      newEntries pid today L items = [] := by
  intro items
  induction items with
  | nil =>
    intro _
    rfl
  | cons it rest ih =>
    intro h
    have hrest := ih (fun t ht => h t (List.mem_cons_of_mem _ ht))
    simp only [newEntries]
    split_ifs with h1 h2 h3
    · exact hrest
    · exact hrest
    · exact hrest
    · exfalso
      exact h3 (h it (List.mem_cons_self _ _) (not_not.mp (by simpa using h1)) h2)

/-- Claim C7: a second collector run against the unchanged completed-items
response and the log written by the first run appends zero new rows;
moreover a candidate whose task id already appears in the TaskId column is
skipped, and a candidate without a task id whose date and item text pair
already appears in the log is skipped. -/
theorem c7_collector_idempotent :
    ∀ (pid today : String) (log : List LogRow) (items : List CompletedItem),
      newEntries pid today (runCollect pid today log items) items = [] ∧
      (∀ (l : List LogRow) (it : CompletedItem),
        candTaskId it ≠ "" →
        l.any (fun r => r.taskId == candTaskId it) = true →
        newEntries pid today l [it] = []) ∧
      (∀ (l : List LogRow) (it : CompletedItem),
        candTaskId it = "" →
        l.any (fun r => r.date == today && r.habit == pyStrip it.content) = true →
        newEntries pid today l [it] = []) := by
  intro pid today log items
  refine ⟨?_, ?_, ?_⟩
  · apply newEntries_nil_of_dup
    intro it hmem hpid hc
    exact dup_after_run pid today log items it hmem hpid hc
  · intro l it ht hany
    simp only [newEntries]
    split_ifs with h1 h2 h3
    · rfl
    · rfl
    · rfl
    · exfalso
      apply h3
      unfold isDup
      rw [if_pos ht]
      exact hany
  · intro l it ht hany
    simp only [newEntries]
    split_ifs with h1 h2 h3
    · rfl
    · rfl
    · rfl
    · exfalso
      apply h3
      unfold isDup
      rw [if_neg (by simp [ht])]
      exact hany

/-- Witness for C7 at a concrete input: one completed item in the target
project; after the first run logs it, a rerun appends nothing, and the
same candidate is skipped against a log already containing its task id. -/
theorem c7_collector_idempotent_witness :
    newEntries "p" "d" (runCollect "p" "d" [] [⟨"p", "x", "1", "", "", ""⟩])
      [⟨"p", "x", "1", "", "", ""⟩] = [] ∧
    newEntries "p" "d" [⟨"d", "x", "1", ""⟩] [⟨"p", "x", "1", "", "", ""⟩] = [] := by
  have h := c7_collector_idempotent "p" "d" [] [⟨"p", "x", "1", "", "", ""⟩]
  exact ⟨h.1, h.2.1 [⟨"d", "x", "1", ""⟩] ⟨"p", "x", "1", "", "", ""⟩ (by decide) (by decide)⟩

end HabitRebuild
